import Mathlib

/-!
Verification development for the Veri-Charm repository.

Shallow embedding of:
- the Scrolls API privacy redaction (webapp services, scrolls-api):
  isSensitiveField, extractPublicData, applyPrivacyShield;
- the demo app state machine (webapp main JS): addTransaction,
  confirmReceipt, burnToken, showTokenDetails, verifyRetailerAddress;
- the ZK circuit template ProductVerification (circuits file).
-/

/-- JSON-like values, the data shape the JavaScript redaction code operates
on (objects are ordered key-value lists, the order Object.entries yields). -/
inductive Json where
  | null : Json
  | bool (b : Bool) : Json
  | num (n : Int) : Json
  | str (s : String) : Json
  | arr (items : List Json) : Json
  | obj (fields : List (String × Json)) : Json
deriving Repr

/-- Embedding of the JavaScript builtin String.prototype.toLowerCase,
character-wise lowering. -/
def strToLower (s : String) : String :=
  String.mk (s.data.map Char.toLower)

/-- Helper for strIncludes: the needle occurs as a contiguous run inside the
haystack character list. -/
def listContainsNeedle : List Char → List Char → Bool
  | needle, [] => needle.isEmpty
  | needle, c :: t => needle.isPrefixOf (c :: t) || listContainsNeedle needle t

/-- Embedding of the JavaScript builtin String.prototype.includes: the
needle occurs as a contiguous substring of the haystack. -/
def strIncludes (hay needle : String) : Bool :=
  listContainsNeedle needle.toList hay.toList

/-- Sensitive-field name list from scrolls-api isSensitiveField. -/
def sensitiveFields : List String :=
  ["privateKey", "secret", "password", "pin",
   "address", "email", "phone", "ssn", "dob"]

/-- Embedding of scrolls-api isSensitiveField: the field name is sensitive
when its lowercasing contains the lowercasing of one of the nine entries. -/
def isSensitiveField (fieldName : String) : Bool :=
  sensitiveFields.any (fun sensitive =>
    strIncludes (strToLower fieldName) (strToLower sensitive))

mutual

/-- Embedding of scrolls-api extractPublicData: arrays are mapped
element-wise, objects keep every key, replacing the value of a sensitive key
by the literal REDACTED marker string and recursing into non-sensitive
values; primitives pass through unchanged. -/
def extractPublicData : Json → Json
  | Json.null => Json.null
  | Json.bool b => Json.bool b
  | Json.num n => Json.num n
  | Json.str s => Json.str s
  | Json.arr items => Json.arr (extractPublicList items)
  | Json.obj fields => Json.obj (extractPublicFields fields)

/-- Element-wise redaction of an array (the data.map branch). -/
def extractPublicList : List Json → List Json
  | [] => []
  | j :: t => extractPublicData j :: extractPublicList t

/-- Key-wise redaction of an object (the Object.entries loop). -/
def extractPublicFields : List (String × Json) → List (String × Json)
  | [] => []
  | (k, v) :: t =>
      (if !(isSensitiveField k) then (k, extractPublicData v)
       else (k, Json.str "[REDACTED]")) :: extractPublicFields t

end

/-- Top-level field presence test on a JSON object. -/
def Json.hasField : Json → String → Bool
  | Json.obj fields, k => fields.any (fun kv => kv.1 == k)
  | _, _ => false

/-- First value stored under a top-level key of a JSON object. -/
def Json.getField : Json → String → Option Json
  | Json.obj fields, k => (fields.find? (fun kv => kv.1 == k)).map Prod.snd
  | _, _ => none

mutual

/-- A JSON tree with no sensitive-named key anywhere (specification-side
predicate used to state when redaction is the identity). -/
def noSensitive : Json → Bool
  | Json.null => true
  | Json.bool _ => true
  | Json.num _ => true
  | Json.str _ => true
  | Json.arr items => noSensitiveList items
  | Json.obj fields => noSensitiveFields fields

/-- All elements of the array are free of sensitive-named keys. -/
def noSensitiveList : List Json → Bool
  | [] => true
  | j :: t => noSensitive j && noSensitiveList t

/-- All keys are non-sensitive and all values are recursively clean. -/
def noSensitiveFields : List (String × Json) → Bool
  | [] => true
  | (k, v) :: t => !(isSensitiveField k) && noSensitive v && noSensitiveFields t

end

/-- Hex digit table used by hashData's byte-to-hex formatting. -/
def hexDigit (n : Nat) : String :=
  ["0", "1", "2", "3", "4", "5", "6", "7",
   "8", "9", "a", "b", "c", "d", "e", "f"].getD n "0"

/-- Two-digit hex rendering of one byte (toString(16).padStart(2, zero)). -/
def hexByte (b : UInt8) : String :=
  hexDigit (b.toNat / 16) ++ hexDigit (b.toNat % 16)

/-- Embedding of scrolls-api hashData. JSON.stringify and TextEncoder are
JavaScript builtins outside this repository, abstracted as the stringify
parameter and UTF-8 encoding; the encoded bytes are hex-joined. -/
def hashData (stringify : Json → String) (data : Json) : String :=
  String.join (((stringify data).toUTF8.toList).map hexByte)

/-- Proof bundle returned by the external zk.generateProof capability. -/
structure ZkBundle where
  proof : String
  publicSignals : List String
  verificationKey : String
deriving Repr

/-- Result of applyPrivacyShield: either the shielded object
(proof, publicSignals, verificationKey, publicData) built on success, or the
raw input data returned by the catch-block fallback. -/
inductive ShieldResult where
  | shielded (proof : String) (publicSignals : List String)
      (verificationKey : String) (publicData : Json) : ShieldResult
  | plain (data : Json) : ShieldResult
deriving Repr

/-- Embedding of scrolls-api applyPrivacyShield. The external prover
zk.generateProof is a parameter taking the circuit name, the public dataHash
input and the private rawData input; a throw is modelled as none. On
success the result carries the proof fields plus extractPublicData of the
data; on failure the catch block returns the data itself unchanged (the
console warning is a log side effect, not part of the returned value). -/
def applyPrivacyShield (stringify : Json → String)
    (generateProof : String → String → Json → Option ZkBundle)
    (data : Json) : ShieldResult :=
  match generateProof "privacy-shield" (hashData stringify data) data with
  | some zkb => ShieldResult.shielded zkb.proof zkb.publicSignals
      zkb.verificationKey (extractPublicData data)
  | none => ShieldResult.plain data

/-- Transaction kinds appearing in the demo app ledger. -/
inductive TxType where
  | mint : TxType
  | payment : TxType
  | transfer : TxType
  | burn : TxType
deriving Repr, DecidableEq

/-- One ledger entry of appState.transactions. The id and the resolved
timestamp are assigned by addTransaction; display-only extras
(certification, carbonFootprint) are carried as optional fields. -/
structure Tx where
  id : Nat := 0
  txType : TxType
  product : String
  fromAddr : String
  toAddr : String
  tokenId : Option String := none
  amount : Option String := none
  timestamp : Option String := none
  certification : Option String := none
  carbonFootprint : Option String := none
deriving Repr

/-- One owned Charm token as built by confirmReceipt. purchaseDate and
purchaseTime are display strings; burnLockDate is a millisecond epoch. -/
structure Token where
  id : String
  product : String
  retailer : String
  category : String
  purchaseDate : String
  purchaseTime : String
  burnLockDate : Nat
  price : Nat
  icon : String
  certification : Option String := none
  carbonFootprint : Option String := none
deriving Repr

/-- Static per-product catalog entry of appState.productInfo. The comment
field idStem models the tokenIdPrefix entry of the source object. -/
structure ProductInfo where
  name : String
  price : Nat
  retailer : String
  retailerAddress : String
  supplier : String
  supplierAddress : String
  idStem : String
  category : String
  icon : Option String := none
  certification : Option String := none
  carbonFootprint : Option String := none
deriving Repr

/-- The mutable application state of the demo app (appState). UI-only
fields such as currentProduct and purchaseInProgress are omitted; the
static productInfo catalog lives outside the state as constants. -/
structure AppState where
  balance : Int
  transactionCounter : Nat
  ownedTokens : List Token
  transactions : List Tx
  privacyEnabled : Bool
deriving Repr

/-- Embedding of addTransaction: the entry gets id = transactionCounter,
the counter is incremented, the timestamp defaults to the current clock
string, and the entry is unshifted (newest first) onto transactions. -/
def addTransaction (s : AppState) (nowStr : String) (tx : Tx) : AppState :=
  let stamped := { tx with id := s.transactionCounter,
                           timestamp := some (tx.timestamp.getD nowStr) }
  { s with transactionCounter := s.transactionCounter + 1,
           transactions := stamped :: s.transactions }

/-- The hard-coded trusted retailer directory of verifyRetailerAddress. -/
def trustedAddresses : List String :=
  ["0xU...rah5r", "0xU...ph4rm", "0xU...m4rkT", "0xU...Gr3nT"]

/-- Outcome of the retailer address check: untrusted shows the security
warning and aborts, mismatch warns about a different trusted retailer,
verified confirms the expected retailer. -/
inductive AddrCheck where
  | untrusted : AddrCheck
  | mismatch : AddrCheck
  | verified : AddrCheck
deriving Repr, DecidableEq

/-- Embedding of verifyRetailerAddress: an address outside trustedAddresses
aborts (send button re-enabled) without recording anything; otherwise a
payment transaction is recorded and the purchase flow continues, with a
mismatch warning when the address belongs to a different trusted retailer. -/
def verifyRetailerAddress (s : AppState) (nowStr : String)
    (addr : String) (p : ProductInfo) : AddrCheck × AppState :=
  if !(trustedAddresses.contains addr) then
    (AddrCheck.untrusted, s)
  else
    let outcome := if addr != p.retailerAddress then AddrCheck.mismatch
                   else AddrCheck.verified
    (outcome, addTransaction s nowStr
      { txType := TxType.payment, product := p.name,
        fromAddr := "bc1q...demo", toAddr := addr,
        amount := some (toString p.price ++ " DLLR"),
        timestamp := some nowStr })

/-- Milliseconds in one day (24 * 60 * 60 * 1000). -/
def msPerDay : Nat := 86400000

/-- padStart(3, zero) applied to a token number rendering. -/
def pad3 (n : Nat) : String :=
  let s := toString n
  (("000".drop s.length) ++ s)

/-- Embedding of confirmReceipt: builds the token id from the catalog id
stem and the padded token number, debits the balance, creates the token
with burnLockDate = now + 14 days, appends it to ownedTokens, then records
the retailer-to-buyer transfer transaction. -/
def confirmReceipt (s : AppState) (nowMs : Nat) (dateStr timeStr : String)
    (p : ProductInfo) (tokenNumber : Nat) : AppState :=
  let tokenId := p.idStem ++ pad3 tokenNumber
  let token : Token :=
    { id := tokenId, product := p.name, retailer := p.retailer,
      category := p.category, purchaseDate := dateStr,
      purchaseTime := timeStr, burnLockDate := nowMs + 14 * msPerDay,
      price := p.price, icon := p.icon.getD "fas fa-tag",
      certification := p.certification,
      carbonFootprint := p.carbonFootprint }
  let s1 := { s with balance := s.balance - (p.price : Int),
                     ownedTokens := s.ownedTokens ++ [token] }
  addTransaction s1 timeStr
    { txType := TxType.transfer, product := p.name,
      fromAddr := p.retailerAddress, toAddr := "bc1q...demo",
      tokenId := some tokenId, timestamp := some timeStr,
      certification := p.certification,
      carbonFootprint := p.carbonFootprint }

/-- Embedding of showTokenDetails: looks the token up in ownedTokens and
renders its details, or none when the lookup fails (the not-found alert). -/
def showTokenDetails (s : AppState) (tokenId : String) : Option String :=
  (s.ownedTokens.find? (fun t => t.id == tokenId)).map (fun token =>
    "Token Details:\n\n" ++
    "ID: " ++ token.id ++ "\n" ++
    "Product: " ++ token.product ++ "\n" ++
    "Category: " ++ token.category ++ "\n" ++
    "Retailer: " ++ token.retailer ++ "\n" ++
    "Purchase Date: " ++ token.purchaseDate ++ "\n" ++
    "Purchase Time: " ++ token.purchaseTime ++ "\n" ++
    "Price: " ++ toString token.price ++ " DLLR\n" ++
    (match token.certification with
     | some c => "\nCertification: " ++ c ++ "\n"
     | none => "") ++
    (match token.carbonFootprint with
     | some c => "Carbon Footprint: " ++ c ++ "\n"
     | none => "") ++
    "\nThis token proves the authenticity of your product.\n" ++
    "Keep it for at least 14 days for warranty/return purposes.")

/-- Outcome of burnToken: the not-found alert, the lock-period alert
carrying the remaining whole days, the user declining the confirm dialog,
or the completed burn. -/
inductive BurnResult where
  | tokenNotFound : BurnResult
  | locked (daysRemaining : Nat) : BurnResult
  | cancelled : BurnResult
  | burned : BurnResult
deriving Repr, DecidableEq

/-- Embedding of burnToken: find the token by id (alert when absent); when
now is strictly before burnLockDate alert with the remaining day count and
change nothing; when the confirm dialog is declined change nothing;
otherwise record the burn transaction and splice the token out of
ownedTokens. -/
def burnToken (s : AppState) (nowMs : Nat) (nowStr : String)
    (tokenId : String) (confirmed : Bool) : BurnResult × AppState :=
  match s.ownedTokens.find? (fun t => t.id == tokenId) with
  | none => (BurnResult.tokenNotFound, s)
  | some token =>
    if nowMs < token.burnLockDate then
      (BurnResult.locked ((token.burnLockDate - nowMs + msPerDay - 1) / msPerDay), s)
    else if !confirmed then
      (BurnResult.cancelled, s)
    else
      let s1 := addTransaction s nowStr
        { txType := TxType.burn, product := token.product,
          fromAddr := "bc1q...demo",
          toAddr := "addr1...daf4w (Burn Address)",
          tokenId := some tokenId, timestamp := some nowStr }
      (BurnResult.burned,
        { s1 with ownedTokens := s1.ownedTokens.eraseP (fun t => t.id == tokenId) })

/-- Modelled from the spec: circomlib's LessThan(64) comparator, included
from node_modules and not part of src. Num2Bits(65) takes the bits of
in0 + 2^64 - in1 and the output is one minus bit 64; over naturals below
2^64 this is the strict-less test. -/
def lessThan64 (a b : Nat) : Nat :=
  1 - ((a + 2 ^ 64 - b) / 2 ^ 64) % 2

/-- Modelled from the spec: circomlib's LessEqThan(64), defined there as
LessThan(64) applied to (in0, in1 + 1). -/
def lessEqThan64 (a b : Nat) : Nat :=
  lessThan64 a (b + 1)

/-- Input signals of the ProductVerification circuit template: three public
inputs and five private witness inputs. -/
structure CircuitIn where
  verificationHash : Nat
  manufacturerPublicKey : Nat
  currentTimestamp : Nat
  productId : Nat
  ownerPrivateKey : Nat
  mintTimestamp : Nat
  warrantyPeriod : Nat
  supplyChainHash : Nat
deriving Repr

/-- Output signals of the ProductVerification circuit template. -/
structure CircuitOut where
  isValid : Nat
  isInWarranty : Nat
  zkProofHash : Nat
deriving Repr

/-- Embedding of the ProductVerification circom template. The SHA256
component's output is never used by any output signal; the Pedersen hash is
external (circomlib) and abstracted as the pedersen parameter. isInWarranty
is the LessEqThan(64) comparison of currentTimestamp against
mintTimestamp + warrantyPeriod, and isValid is assigned the constant 1. -/
def ProductVerification (pedersen : Nat → Nat → Nat) (inp : CircuitIn) : CircuitOut :=
  { isValid := 1,
    isInWarranty := lessEqThan64 inp.currentTimestamp
      (inp.mintTimestamp + inp.warrantyPeriod),
    zkProofHash := pedersen inp.productId inp.supplyChainHash }

/-- Concrete catalog entry mirroring the fragrance product of the source
appState.productInfo (idStem models tokenIdPrefix). -/
def fragranceInfo : ProductInfo :=
  { name := "Éclat de Lune", price := 50,
    retailer := "Scent & Soul Boutique", retailerAddress := "0xU...rah5r",
    supplier := "L'Éclat des Cieux", supplierAddress := "addr1...RvT5",
    idStem := "#LUX-", category := "Luxury Fragrance",
    icon := some "fas fa-gem" }

/-- Concrete owned token used by the counterexample runs, purchased at
epoch 0 so its burn lock expires exactly at 14 days. -/
def tokenEx : Token :=
  { id := "#LUX-001", product := "Éclat de Lune",
    retailer := "Scent & Soul Boutique", category := "Luxury Fragrance",
    purchaseDate := "10/1/2026", purchaseTime := "10:00",
    burnLockDate := 14 * msPerDay, price := 50, icon := "fas fa-gem" }

/-- Concrete pre-existing ledger entry (the factory mint of the token). -/
def tx0 : Tx :=
  { id := 5, txType := TxType.mint, product := "Éclat de Lune",
    fromAddr := "addr1...RvT5", toAddr := "Factory Mint",
    tokenId := some "#LUX-001", timestamp := some "2 days ago" }

/-- Concrete app state holding one owned token and one ledger entry. -/
def s0 : AppState :=
  { balance := 150, transactionCounter := 9,
    ownedTokens := [tokenEx], transactions := [tx0],
    privacyEnabled := false }

/-- State after the confirmed successful burn of the example token exactly
at the 14-day boundary. -/
def s0After : AppState :=
  (burnToken s0 (14 * msPerDay) "10:05" "#LUX-001" true).2

/-- Concrete supply-chain history entry used against the privacy shield:
one event carrying a non-sensitive type field and a sensitive email field. -/
def dataEx : Json :=
  Json.obj [("type", Json.str "Mint"), ("email", Json.str "a@b.c")]

/-- Concrete object with a top-level sensitive key and a non-sensitive key
whose value nests a sensitive key. -/
def dataEx2 : Json :=
  Json.obj [("email", Json.str "x"),
            ("meta", Json.obj [("email", Json.str "y")])]

/-- A transaction like the one confirmReceipt would record, used to
exercise the ledger lemma at a concrete state. -/
def txW : Tx :=
  { txType := TxType.transfer, product := "Éclat de Lune",
    fromAddr := "0xU...rah5r", toAddr := "bc1q...demo",
    tokenId := some "#LUX-001" }

theorem find?_eraseP_of_uniq {α : Type} (p : α → Bool) (l : List α)
    (h : (l.filter p).length ≤ 1) : (l.eraseP p).find? p = none := by
  induction l with
  | nil => rfl
  | cons a t ih =>
    by_cases ha : p a
    · simp [List.eraseP_cons, ha, List.filter_cons] at h ⊢
      exact h
    · simp [List.eraseP_cons, ha, List.filter_cons] at h ⊢
      exact fun x hx => Bool.eq_false_iff.mpr (List.find?_eq_none.mp (ih h) x hx)

theorem extractPublicList_eq_map (l : List Json) :
    extractPublicList l = l.map extractPublicData := by
  induction l with
  | nil => rfl
  | cons j t ih => simp [extractPublicList, ih]

theorem getField_extractFields (fs : List (String × Json)) (k : String) :
    ((extractPublicFields fs).find? (fun kv => kv.1 == k)).map Prod.snd
      = ((fs.find? (fun kv => kv.1 == k)).map Prod.snd).map
          (fun v => if isSensitiveField k then Json.str "[REDACTED]"
                    else extractPublicData v) := by
  induction fs with
  | nil => rfl
  | cons kv t ih =>
    obtain ⟨k', v'⟩ := kv
    by_cases hbk : (k' == k) = true
    · have hk : k' = k := by simpa using hbk
      subst hk
      by_cases hs : isSensitiveField k'
      · simp [extractPublicFields, hs, List.find?_cons_of_pos, hbk]
      · simp [extractPublicFields, hs, List.find?_cons_of_pos, hbk]
    · by_cases hs : isSensitiveField k'
      · simp only [extractPublicFields, hs, Bool.not_true, Bool.false_eq_true,
          if_false]
        rw [List.find?_cons_of_neg _ (by simpa using hbk),
            List.find?_cons_of_neg _ (by simpa using hbk)]
        exact ih
      · simp only [extractPublicFields, hs, Bool.not_false, if_true]
        rw [List.find?_cons_of_neg _ (by simpa using hbk),
            List.find?_cons_of_neg _ (by simpa using hbk)]
        exact ih

theorem extract_eq_of_noSensitive :
    ∀ j : Json, noSensitive j = true → extractPublicData j = j := by
  have H := extractPublicData.induct
    (fun j => noSensitive j = true → extractPublicData j = j)
    (fun fs => noSensitiveFields fs = true → extractPublicFields fs = fs)
    (fun l => noSensitiveList l = true → extractPublicList l = l)
  apply H
  · intro _; rfl
  · intro b _; rfl
  · intro n _; rfl
  · intro s _; rfl
  · intro items ih h
    have := ih (by simpa [noSensitive] using h)
    simp [extractPublicData, this]
  · intro fields ih h
    have := ih (by simpa [noSensitive] using h)
    simp [extractPublicData, this]
  · intro _; rfl
  · intro j t ih1 ih2 h
    simp [noSensitiveList] at h
    simp [extractPublicList, ih1 h.1, ih2 h.2]
  · intro _; rfl
  · intro k v t ih1 ih2 h
    simp [noSensitiveFields] at h
    simp [extractPublicFields, h.1.1, ih1 h.1.2, ih2 h.2]

/-- C4 counterexample: when the prover capability fails, applyPrivacyShield
returns the raw input data unchanged; the returned value carries no
privacyApplied flag (nor any other marking) — the claimed observable
privacyApplied=false flag does not exist in the code. -/
theorem shield_fallback_no_flag_cex :
    applyPrivacyShield (fun _ => "") (fun _ _ _ => none) dataEx
      = ShieldResult.plain dataEx
    ∧ dataEx.hasField "privacyApplied" = false := by
  exact ⟨rfl, rfl⟩

/-- C4 amended: whenever the external prover capability fails, the
operation falls back to returning the plain (non-redacted) data completely
unchanged; nothing in the returned value marks the fallback (the only
signal in the code is a console warning, a log side effect). -/
theorem shield_fallback_plain (stringify : Json → String)
    (generateProof : String → String → Json → Option ZkBundle) (data : Json)
    (h : generateProof "privacy-shield" (hashData stringify data) data = none) :
    applyPrivacyShield stringify generateProof data = ShieldResult.plain data := by
  simp [applyPrivacyShield, h]

/-- C4 witness at a concrete always-failing prover and history. -/
theorem shield_fallback_plain_witness :
    applyPrivacyShield (fun _ => "") (fun _ _ _ => none) dataEx
      = ShieldResult.plain dataEx :=
  shield_fallback_plain (fun _ => "") (fun _ _ _ => none) dataEx rfl

/-- C5 counterexample: the redacted public view of dataEx2 still contains a
field named email, which matches the sensitive set; and the non-sensitive
field meta does not keep its source value bit-identically, because its
nested sensitive field is redacted inside it. -/
theorem redaction_keeps_sensitive_names_cex :
    isSensitiveField "email" = true
    ∧ (extractPublicData dataEx2).hasField "email" = true
    ∧ isSensitiveField "meta" = false
    ∧ ¬ ((extractPublicData dataEx2).getField "meta" = dataEx2.getField "meta") := by
  refine ⟨by decide, rfl, by decide, ?_⟩
  intro h
  rw [show (extractPublicData dataEx2).getField "meta"
        = some (Json.obj [("email", Json.str "[REDACTED]")]) from rfl,
      show dataEx2.getField "meta"
        = some (Json.obj [("email", Json.str "y")]) from rfl] at h
  simp at h

/-- C5 amended: the public view keeps every field of the source under its
own name; looking a key up in the redacted object yields the REDACTED
marker string when the key is sensitive and the recursively redacted source
value otherwise, so a non-sensitive field keeps its value bit-identically
whenever its subtree has no sensitive-named key (in particular, every
non-sensitive primitive field passes through unchanged). -/
theorem redaction_fieldwise :
    (∀ (fs : List (String × Json)) (k : String),
        (extractPublicData (Json.obj fs)).getField k
          = ((Json.obj fs).getField k).map (fun v =>
              if isSensitiveField k then Json.str "[REDACTED]"
              else extractPublicData v))
    ∧ (∀ j : Json, noSensitive j = true → extractPublicData j = j) := by
  constructor
  · intro fs k
    show ((extractPublicFields fs).find? (fun kv => kv.1 == k)).map Prod.snd
        = ((fs.find? (fun kv => kv.1 == k)).map Prod.snd).map _
    rw [getField_extractFields]
  · exact extract_eq_of_noSensitive

/-- C5 witness: a sensitive lookup returns the marker and a sensitive-free
object is preserved bit-identically. -/
theorem redaction_fieldwise_witness :
    (extractPublicData (Json.obj [("email", Json.str "x")])).getField "email"
      = some (Json.str "[REDACTED]")
    ∧ extractPublicData (Json.obj [("category", Json.str "test")])
      = Json.obj [("category", Json.str "test")] := by
  constructor
  · rw [redaction_fieldwise.1 [("email", Json.str "x")] "email"]; rfl
  · exact redaction_fieldwise.2 _ (by decide)

/-- C10: a field is sensitive exactly when its lowercased name contains one
of the nine lowercase substrings; a sensitive field's value is replaced
whole by the REDACTED marker (even when it is an object), a non-sensitive
object value is recursed into, and arrays are recursed element-wise. -/
theorem sensitive_field_redaction_semantics :
    ∀ (k : String) (v : Json) (items : List Json),
      (isSensitiveField k
        = (["privatekey", "secret", "password", "pin", "address",
            "email", "phone", "ssn", "dob"].any
             (fun sub => strIncludes (strToLower k) sub)))
      ∧ (isSensitiveField k = true →
          extractPublicData (Json.obj [(k, v)])
            = Json.obj [(k, Json.str "[REDACTED]")])
      ∧ (isSensitiveField k = false →
          extractPublicData (Json.obj [(k, v)])
            = Json.obj [(k, extractPublicData v)])
      ∧ extractPublicData (Json.arr items)
          = Json.arr (items.map extractPublicData) := by
  intro k v items
  refine ⟨rfl, ?_, ?_, ?_⟩
  · intro h; simp [extractPublicData, extractPublicFields, h]
  · intro h; simp [extractPublicData, extractPublicFields, h]
  · simp [extractPublicData, extractPublicList_eq_map]

/-- C10 witness: a sensitive-named object value is replaced whole, and a
non-sensitive field recurses. -/
theorem sensitive_field_redaction_semantics_witness :
    extractPublicData (Json.obj [("homeAddress", Json.obj [("city", Json.str "Oslo")])])
      = Json.obj [("homeAddress", Json.str "[REDACTED]")]
    ∧ extractPublicData (Json.obj [("category", Json.str "test")])
      = Json.obj [("category", Json.str "test")] :=
  ⟨(sensitive_field_redaction_semantics "homeAddress"
      (Json.obj [("city", Json.str "Oslo")]) []).2.1 (by decide),
   (sensitive_field_redaction_semantics "category"
      (Json.str "test") []).2.2.1 (by decide)⟩

/-- C6: when the recipient address is not in the trusted retailer
directory, the transfer flow aborts with the untrusted outcome and the
state is untouched — in particular no payment or transfer transaction is
recorded; the directory lookup is a total boolean membership test, so an
unknown address simply yields false rather than an error. -/
theorem untrusted_recipient_no_payment (s : AppState) (nowStr addr : String)
    (p : ProductInfo) (h : trustedAddresses.contains addr = false) :
    verifyRetailerAddress s nowStr addr p = (AddrCheck.untrusted, s)
    ∧ (verifyRetailerAddress s nowStr addr p).2.transactions = s.transactions := by
  have hmem : addr ∉ trustedAddresses := by simpa using h
  constructor
  · simp [verifyRetailerAddress, hmem]
  · simp [verifyRetailerAddress, hmem]

/-- C6 witness at a concrete unknown address. -/
theorem untrusted_recipient_no_payment_witness :
    verifyRetailerAddress s0 "10:00" "0xEVIL...0000" fragranceInfo
      = (AddrCheck.untrusted, s0) :=
  (untrusted_recipient_no_payment s0 "10:00" "0xEVIL...0000" fragranceInfo
    (by decide)).1

/-- C7: the isValid output of the ProductVerification circuit equals 1 for
every assignment of its input signals and every external Pedersen hash; no
ownership or supply-chain condition constrains it. -/
theorem isValid_always_one (pedersen : Nat → Nat → Nat) (inp : CircuitIn) :
    (ProductVerification pedersen inp).isValid = 1 := rfl

/-- C8: on every assignment whose timestamps fit the comparator's 64-bit
range (the range in which the LessEqThan(64) constraints are satisfiable),
isInWarranty is 1 exactly when currentTimestamp is at most
mintTimestamp + warrantyPeriod, and 0 exactly when it is past it. -/
theorem isInWarranty_warranty_window (pedersen : Nat → Nat → Nat)
    (inp : CircuitIn) (h1 : inp.currentTimestamp < 2 ^ 64)
    (h2 : inp.mintTimestamp + inp.warrantyPeriod < 2 ^ 64) :
    ((ProductVerification pedersen inp).isInWarranty = 1
      ↔ inp.currentTimestamp ≤ inp.mintTimestamp + inp.warrantyPeriod)
    ∧ ((ProductVerification pedersen inp).isInWarranty = 0
      ↔ inp.mintTimestamp + inp.warrantyPeriod < inp.currentTimestamp) := by
  have e64 : (2 : Nat) ^ 64 = 18446744073709551616 := by norm_num
  unfold ProductVerification lessEqThan64 lessThan64
  simp only [e64] at h1 h2 ⊢
  set a := inp.currentTimestamp with ha
  set b := inp.mintTimestamp + inp.warrantyPeriod with hb
  rcases le_or_lt a b with hle | hgt
  · have hd : (a + 18446744073709551616 - (b + 1)) / 18446744073709551616 = 0 :=
      Nat.div_eq_of_lt (by omega)
    rw [hd]
    exact ⟨⟨fun _ => hle, fun _ => by omega⟩,
           ⟨fun hx => by omega, fun hx => by omega⟩⟩
  · have hd : (a + 18446744073709551616 - (b + 1)) / 18446744073709551616 = 1 :=
      Nat.div_eq_of_lt_le (by omega) (by omega)
    rw [hd]
    exact ⟨⟨fun hx => by omega, fun hx => by omega⟩,
           ⟨fun _ => hgt, fun _ => by omega⟩⟩

/-- C8 witness: inside the warranty window at day five of a fourteen-day
warranty the output is 1. -/
theorem isInWarranty_warranty_window_witness :
    (ProductVerification (fun a b => a + b)
      { verificationHash := 0, manufacturerPublicKey := 7,
        currentTimestamp := 5, productId := 1, ownerPrivateKey := 2,
        mintTimestamp := 3, warrantyPeriod := 14,
        supplyChainHash := 9 }).isInWarranty = 1
    ∧ (5 : Nat) ≤ 3 + 14 :=
  ⟨(isInWarranty_warranty_window (fun a b => a + b) _
      (by norm_num) (by norm_num)).1.mpr (by norm_num), by norm_num⟩

/-- C9: addTransaction appends one entry carrying id = transactionCounter,
strictly larger than every id already in the ledger (given the counter
invariant), bumps the counter, and re-establishes the invariant; and every
state-changing operation of the app (burnToken, confirmReceipt,
verifyRetailerAddress) leaves the previous ledger as an untouched suffix —
entries are never mutated or deleted, only prepended (newest first). -/
theorem ledger_append_only_monotonic (s : AppState) (nowStr : String) (tx : Tx)
    (h : ∀ t ∈ s.transactions, t.id < s.transactionCounter) :
    (∃ stamped, (addTransaction s nowStr tx).transactions = stamped :: s.transactions
       ∧ (∀ t ∈ s.transactions, t.id < stamped.id)
       ∧ stamped.id = s.transactionCounter)
    ∧ (addTransaction s nowStr tx).transactionCounter = s.transactionCounter + 1
    ∧ (∀ t ∈ (addTransaction s nowStr tx).transactions,
         t.id < (addTransaction s nowStr tx).transactionCounter)
    ∧ (∀ (s' : AppState) (m : Nat) (str tid : String) (c : Bool),
         s'.transactions <:+ (burnToken s' m str tid c).2.transactions)
    ∧ (∀ (s' : AppState) (m : Nat) (dS tS : String) (p : ProductInfo) (n : Nat),
         s'.transactions <:+ (confirmReceipt s' m dS tS p n).transactions)
    ∧ (∀ (s' : AppState) (str a : String) (p : ProductInfo),
         s'.transactions <:+ (verifyRetailerAddress s' str a p).2.transactions) := by
  refine ⟨⟨_, rfl, ?_, rfl⟩, rfl, ?_, ?_, ?_, ?_⟩
  · exact h
  · intro t ht
    simp only [addTransaction, List.mem_cons] at ht
    rcases ht with rfl | ht
    · simp [addTransaction]
    · have := h t ht
      simp [addTransaction]
      omega
  · intro s' m str tid c
    unfold burnToken
    cases s'.ownedTokens.find? (fun t => t.id == tid) with
    | none => exact List.suffix_refl _
    | some token =>
      by_cases hlt : m < token.burnLockDate
      · simp only [hlt, if_true]
        exact List.suffix_refl _
      · simp only [hlt, if_false]
        by_cases hc : c
        · simp only [hc, Bool.not_true, Bool.false_eq_true, if_false,
            addTransaction]
          exact List.suffix_cons _ _
        · simp only [Bool.not_eq_true] at hc
          simp only [hc, Bool.not_false, if_true]
          exact List.suffix_refl _
  · intro s' m dS tS p n
    unfold confirmReceipt addTransaction
    exact List.suffix_cons _ _
  · intro s' str a p
    unfold verifyRetailerAddress
    by_cases ha : trustedAddresses.contains a
    · simp only [ha, Bool.not_true, Bool.false_eq_true, if_false,
        addTransaction]
      exact List.suffix_cons _ _
    · simp only [Bool.not_eq_true] at ha
      simp only [ha, Bool.not_false, if_true]
      exact List.suffix_refl _

/-- C9 witness at the concrete state with one prior ledger entry. -/
theorem ledger_append_only_monotonic_witness :
    (addTransaction s0 "12:00" txW).transactionCounter = 10 :=
  (ledger_append_only_monotonic s0 "12:00" txW (by decide)).2.1

/-- A burn on an id absent from the owned collection yields the not-found
alert and changes nothing. -/
theorem burnToken_eq_notFound (s : AppState) (m : Nat) (str tid : String)
    (c : Bool) (h : s.ownedTokens.find? (fun t' => t'.id == tid) = none) :
    burnToken s m str tid c = (BurnResult.tokenNotFound, s) := by
  unfold burnToken
  rw [h]

/-- C1 counterexample: a confirmed burn exactly at the lock boundary
(14 days after purchase) succeeds, but the token is spliced out of the
owned collection rather than being marked Burned — no record with a Burned
state exists afterwards (tokens carry no state field at all). -/
theorem burn_boundary_removes_token_cex :
    (burnToken s0 (14 * msPerDay) "10:05" "#LUX-001" true).1 = BurnResult.burned
    ∧ s0After.ownedTokens = [] := ⟨rfl, rfl⟩

/-- C1 amended: with the token present, a burn strictly before its
burnLockDate fails with the lock-period alert (reporting the remaining
days) and changes no state; at or after the boundary a confirmed burn
succeeds, appending a burn transaction and removing the token from the
owned collection instead of marking it Burned; and confirmReceipt sets
burnLockDate to the purchase time plus exactly 14 days. -/
theorem burn_lock_period_behavior (s : AppState) (nowMs : Nat)
    (nowStr tid : String) (c : Bool) (t : Token)
    (hfind : s.ownedTokens.find? (fun t' => t'.id == tid) = some t) :
    (nowMs < t.burnLockDate →
      burnToken s nowMs nowStr tid c
        = (BurnResult.locked ((t.burnLockDate - nowMs + msPerDay - 1) / msPerDay), s))
    ∧ (t.burnLockDate ≤ nowMs → c = true →
      (burnToken s nowMs nowStr tid c).1 = BurnResult.burned
      ∧ (burnToken s nowMs nowStr tid c).2.ownedTokens
          = s.ownedTokens.eraseP (fun t' => t'.id == tid)
      ∧ (burnToken s nowMs nowStr tid c).2.transactions
          = { id := s.transactionCounter, txType := TxType.burn,
              product := t.product, fromAddr := "bc1q...demo",
              toAddr := "addr1...daf4w (Burn Address)",
              tokenId := some tid, timestamp := some nowStr } :: s.transactions)
    ∧ (∀ (s' : AppState) (m : Nat) (dS tS : String) (p : ProductInfo) (n : Nat),
      (confirmReceipt s' m dS tS p n).ownedTokens
        = s'.ownedTokens ++
            [{ id := p.idStem ++ pad3 n, product := p.name,
               retailer := p.retailer, category := p.category,
               purchaseDate := dS, purchaseTime := tS,
               burnLockDate := m + 14 * msPerDay, price := p.price,
               icon := p.icon.getD "fas fa-tag",
               certification := p.certification,
               carbonFootprint := p.carbonFootprint }]) := by
  refine ⟨?_, ?_, ?_⟩
  · intro hlt
    simp [burnToken, hfind, hlt]
  · intro hge hc
    subst hc
    refine ⟨?_, ?_, ?_⟩
    · simp [burnToken, hfind, Nat.not_lt.mpr hge]
    · simp [burnToken, hfind, Nat.not_lt.mpr hge, addTransaction]
    · simp [burnToken, hfind, Nat.not_lt.mpr hge, addTransaction]
  · intro s' m dS tS p n
    simp [confirmReceipt, addTransaction]

/-- C1 witness: at day 0 the example token's burn is locked with 14 days
remaining and nothing changes. -/
theorem burn_lock_period_behavior_witness :
    burnToken s0 0 "09:00" "#LUX-001" true = (BurnResult.locked 14, s0) := by
  have h := (burn_lock_period_behavior s0 0 "09:00" "#LUX-001" true tokenEx
    rfl).1 (by decide)
  rw [h]
  norm_num [tokenEx, msPerDay]

/-- C2 counterexample: after the example token is burned, a second burn
attempt on the same id yields the not-found alert and changes nothing; the
code has no TerminalState outcome for an already burned token, because the
burned token no longer exists. -/
theorem second_burn_not_terminal_cex :
    burnToken s0After (15 * msPerDay) "11:00" "#LUX-001" true
      = (BurnResult.tokenNotFound, s0After) := rfl

/-- C2 amended: when the owned collection holds at most one token with the
id, a successful burn removes it, and any second burn attempt on the same
id fails with the not-found alert and leaves the state — in particular the
ledger — completely unchanged, so no further event is appended for the
burned token by the burn operation. -/
theorem burned_token_second_burn (s : AppState) (now1 now2 : Nat)
    (str1 str2 tid : String) (c : Bool) (t : Token)
    (hfind : s.ownedTokens.find? (fun t' => t'.id == tid) = some t)
    (hlock : t.burnLockDate ≤ now1)
    (huniq : (s.ownedTokens.filter (fun t' => t'.id == tid)).length ≤ 1) :
    (burnToken s now1 str1 tid true).1 = BurnResult.burned
    ∧ burnToken (burnToken s now1 str1 tid true).2 now2 str2 tid c
        = (BurnResult.tokenNotFound, (burnToken s now1 str1 tid true).2) := by
  have hshape : (burnToken s now1 str1 tid true).2.ownedTokens
      = s.ownedTokens.eraseP (fun t' => t'.id == tid) := by
    simp [burnToken, hfind, Nat.not_lt.mpr hlock, addTransaction]
  have hnone : ((burnToken s now1 str1 tid true).2.ownedTokens).find?
      (fun t' => t'.id == tid) = none := by
    rw [hshape]
    exact find?_eraseP_of_uniq _ _ huniq
  exact ⟨by simp [burnToken, hfind, Nat.not_lt.mpr hlock],
         burnToken_eq_notFound _ _ _ _ _ hnone⟩

/-- C2 witness at the concrete single-token state. -/
theorem burned_token_second_burn_witness :
    burnToken (burnToken s0 (14 * msPerDay) "10:05" "#LUX-001" true).2
        (20 * msPerDay) "09:00" "#LUX-001" true
      = (BurnResult.tokenNotFound,
         (burnToken s0 (14 * msPerDay) "10:05" "#LUX-001" true).2) :=
  (burned_token_second_burn s0 (14 * msPerDay) (20 * msPerDay) "10:05" "09:00"
    "#LUX-001" true tokenEx rfl (by decide) (by decide)).2

/-- C3 counterexample: before the burn the example token's details are
queryable; after the successful burn the details lookup fails with the
not-found alert — the record is physically deleted from the collection, not
retained in a Burned state. -/
theorem burned_token_details_cex :
    (showTokenDetails s0 "#LUX-001").isSome = true
    ∧ showTokenDetails s0After "#LUX-001" = none := ⟨rfl, rfl⟩

/-- C3 amended: a successful burn physically removes the token's record
from the owned collection, so its details can no longer be looked up; what
remains queryable is only the append-only transaction ledger, which keeps
all previous entries untouched and gains the burn transaction. -/
theorem burned_token_removed_but_ledger_kept (s : AppState) (now : Nat)
    (nowStr tid : String) (t : Token)
    (hfind : s.ownedTokens.find? (fun t' => t'.id == tid) = some t)
    (hlock : t.burnLockDate ≤ now)
    (huniq : (s.ownedTokens.filter (fun t' => t'.id == tid)).length ≤ 1) :
    showTokenDetails (burnToken s now nowStr tid true).2 tid = none
    ∧ (burnToken s now nowStr tid true).2.transactions
        = { id := s.transactionCounter, txType := TxType.burn,
            product := t.product, fromAddr := "bc1q...demo",
            toAddr := "addr1...daf4w (Burn Address)",
            tokenId := some tid, timestamp := some nowStr } :: s.transactions
    ∧ s.transactions <:+ (burnToken s now nowStr tid true).2.transactions := by
  have hshape : (burnToken s now nowStr tid true).2.ownedTokens
      = s.ownedTokens.eraseP (fun t' => t'.id == tid) := by
    simp [burnToken, hfind, Nat.not_lt.mpr hlock, addTransaction]
  have htx : (burnToken s now nowStr tid true).2.transactions
      = { id := s.transactionCounter, txType := TxType.burn,
          product := t.product, fromAddr := "bc1q...demo",
          toAddr := "addr1...daf4w (Burn Address)",
          tokenId := some tid, timestamp := some nowStr } :: s.transactions := by
    simp [burnToken, hfind, Nat.not_lt.mpr hlock, addTransaction]
  refine ⟨?_, htx, ?_⟩
  · unfold showTokenDetails
    rw [hshape, find?_eraseP_of_uniq _ _ huniq]
    rfl
  · rw [htx]
    exact List.suffix_cons _ _

/-- C3 witness at the concrete single-token state. -/
theorem burned_token_removed_but_ledger_kept_witness :
    showTokenDetails (burnToken s0 (14 * msPerDay) "10:05" "#LUX-001" true).2
      "#LUX-001" = none :=
  (burned_token_removed_but_ledger_kept s0 (14 * msPerDay) "10:05" "#LUX-001"
    tokenEx rfl (by decide) (by decide)).1
